import Mathlib

/-!
Shallow embedding of `dexscreener_bot.py`: the classification and
verification pipeline of class `DexScreenerBot`.

Modelling conventions:
* Python dynamic values are modelled by `PyVal`; machine floats by `ℚ`
  (the pipeline only compares numbers, it never does float arithmetic).
* A raised (uncaught) Python exception is modelled by `Except Unit`,
  with `.error ()` standing for the exception.
* Network calls made by `verify_volume` / `verify_rugcheck` are modelled
  by explicit oracles (`World`): the oracle returns `.error ()` for a
  transport error / non-JSON body and `.ok v` for a parsed JSON value.
* Database writes (`token_data`, `coin_events`) and invocations of the
  Notifier (`send_telegram_notification`) are collected in a `BotState`.
  `send_telegram_notification` itself only performs I/O, so the state
  records the messages it is invoked with.
* Threshold values stored in the configuration are restricted to
  numeric-or-absent (`Option ℚ`), which is the shape every claim uses;
  blacklists are string lists, endpoints are strings with `""` standing
  for "not configured", exactly like the `dict.get(key, default)`
  accesses in the source.
-/

set_option autoImplicit false

namespace DexBot

/-- A Python value, as far as the bot manipulates one. -/
inductive PyVal where
  | none
  | bool (b : Bool)
  | int (n : Int)
  | float (q : ℚ)
  | str (s : String)
  | list (xs : List PyVal)
  | dict (xs : List (String × PyVal))

/-- Python truthiness, `bool(v)`. -/
def PyVal.truthy : PyVal → Bool
  | .none => false
  | .bool b => b
  | .int n => n != 0
  | .float q => q != 0
  | .str s => s != ""
  | .list xs => !xs.isEmpty
  | .dict xs => !xs.isEmpty

/-- Decimal digit character (arguments are always `< 10` at use sites). -/
def digitChar : Nat → Char
  | 0 => '0' | 1 => '1' | 2 => '2' | 3 => '3' | 4 => '4'
  | 5 => '5' | 6 => '6' | 7 => '7' | 8 => '8' | _ => '9'

/-- Decimal digits of `n`, most significant first, with explicit fuel so
that the kernel can evaluate it (the fuel `n + 1` always suffices). -/
def natDigitsAux : Nat → Nat → List Char
  | 0, _ => []
  | fuel + 1, n =>
    if n < 10 then [digitChar n]
    else natDigitsAux fuel (n / 10) ++ [digitChar (n % 10)]

/-- Decimal rendering of a natural number. -/
def natStr (n : Nat) : String :=
  String.mk (natDigitsAux (n + 1) n)

/-- Rendering of a rational, standing in for Python's float formatting in
the interpolated detail messages (the claims never depend on the exact
digits, only on which detail goes with which event). -/
def ratStr (q : ℚ) : String :=
  (if q < 0 then "-" else "") ++ natStr q.num.natAbs
    ++ (if q.den = 1 then "" else "/" ++ natStr q.den)

/-- ASCII uppercase of one character (Python `str.upper`, ASCII range). -/
def charUpper (c : Char) : Char :=
  if 'a' ≤ c ∧ c ≤ 'z' then Char.ofNat (c.toNat - 32) else c

/-- ASCII lowercase of one character (Python `str.lower`, ASCII range). -/
def charLower (c : Char) : Char :=
  if 'A' ≤ c ∧ c ≤ 'Z' then Char.ofNat (c.toNat + 32) else c

/-- Python `s.upper()` on the ASCII range. -/
def strUpper (s : String) : String :=
  String.mk (s.toList.map charUpper)

/-- Python `s.lower()` on the ASCII range. -/
def strLower (s : String) : String :=
  String.mk (s.toList.map charLower)

/-- Python `str(v)` for the values the bot interpolates into messages
(only the `str` case is reachable in the embedded code paths). -/
def PyVal.toDisplay : PyVal → String
  | .none => "None"
  | .bool b => if b then "True" else "False"
  | .int n => ratStr (n : ℚ)
  | .float q => ratStr q
  | .str s => s
  | .list _ => "[...]"
  | .dict _ => "dict"

/-- Lookup of key `k` in a Python dict body (first binding wins). -/
def dictGet (xs : List (String × PyVal)) (k : String) : Option PyVal :=
  List.lookup k xs

/-- Python `v.get(k, d)`: raises `AttributeError` unless `v` is a dict. -/
def pyGetD : PyVal → String → PyVal → Except Unit PyVal
  | .dict xs, k, d => .ok ((dictGet xs k).getD d)
  | _, _, _ => .error ()

/-- Python `v.get(k)` (default `None`). -/
def pyGet (v : PyVal) (k : String) : Except Unit PyVal :=
  pyGetD v k .none

/-- Pure field access on a token already known to be a dict: the value at
`k`, or Python `None` when the key is absent (or the value is not a dict). -/
def tokGet (v : PyVal) (k : String) : PyVal :=
  match v with
  | .dict xs => (dictGet xs k).getD .none
  | _ => .none

/-- Python `v.upper()`: only a `str` has this attribute. -/
def pyUpper : PyVal → Except Unit String
  | .str s => .ok (strUpper s)
  | _ => .error ()

/-- Python `v.lower()`: only a `str` has this attribute. -/
def pyLower : PyVal → Except Unit String
  | .str s => .ok (strLower s)
  | _ => .error ()

/-- Python `v == s` for a string literal `s`: true only for an equal `str`. -/
def pyEqStr (v : PyVal) (s : String) : Bool :=
  match v with
  | .str t => t == s
  | _ => false

/-- Accumulate a decimal digit string; fails on a non-digit. -/
def digitsAcc : Nat → List Char → Option Nat
  | acc, [] => some acc
  | acc, c :: cs =>
    if c.isDigit then digitsAcc (acc * 10 + (c.toNat - 48)) cs else none

/-- Python `float(s)` on a string, restricted to plain signed decimal
literals (`-12`, `+3.5`, `1.`, `.5`); other strings fail to coerce. -/
def parsePyFloat (s : String) : Option ℚ :=
  let signed : ℚ × List Char :=
    match s.toList with
    | '-' :: r => (-1, r)
    | '+' :: r => (1, r)
    | r => (1, r)
  match signed.2.splitOn '.' with
  | [ip] =>
    if ip.isEmpty then none
    else (digitsAcc 0 ip).map (fun i => signed.1 * (i : ℚ))
  | [ip, fp] =>
    if ip.isEmpty && fp.isEmpty then none
    else
      match digitsAcc 0 ip, digitsAcc 0 fp with
      | some i, some f =>
        some (signed.1 * ((i : ℚ) + (f : ℚ) / ((10 : ℚ) ^ fp.length)))
      | _, _ => none
  | _ => none

/-- `DexScreenerBot._safe_float`: convert a value to a number, `none`
(Python `None`) when `float(value)` raises `TypeError`/`ValueError`. -/
def safeFloat : PyVal → Option ℚ
  | .int n => some (n : ℚ)
  | .float q => some q
  | .bool b => some (if b then 1 else 0)
  | .str s => parsePyFloat s
  | _ => none

/-- The `filters` section of the configuration, as read by
`classify_coin` via `filters.get(key, default)`: each threshold is
numeric or absent. -/
structure Filters where
  rug_threshold : Option ℚ
  pump_threshold : Option ℚ
  tier1_liquidity : Option ℚ

/-- The configuration fields the pipeline reads, with the same
defaults-on-absence the source applies at each `get`:
`coin_blacklist`/`dev_blacklist` default to `[]`, each
`api_endpoints.*` entry defaults to `""` ("not configured"). -/
structure Config where
  filters : Filters
  coin_blacklist : List String
  dev_blacklist : List String
  pocket_universe : String
  rugcheck : String

/-- Oracles for the two external verification services: the response of
a GET keyed by token id (Pocket Universe) or contract (rugcheck.xyz).
`.error ()` stands for a transport error / HTTP error / non-JSON body,
`.ok v` for the parsed JSON value. -/
structure World where
  pocketResp : PyVal → Except Unit PyVal
  rugResp : PyVal → Except Unit PyVal

/-- A world in which every network call fails (irrelevant whenever the
corresponding endpoint is not configured, because no call is made). -/
def noNet : World :=
  ⟨fun _ => .error (), fun _ => .error ()⟩

/-- One row of the `token_data` table, as written by `save_token_data`. -/
structure Snapshot where
  token_id : PyVal
  symbol : PyVal
  developer : PyVal
  contract : PyVal
  price : Option ℚ
  liquidity : Option ℚ
  volume : Option ℚ
  price_change : Option ℚ
  bundled : Int

/-- The observable effects of the pipeline: the two append-only tables
and the list of messages the Notifier has been invoked with. -/
structure BotState where
  token_data : List Snapshot
  coin_events : List (PyVal × String × String)
  notifications : List String

/-- The empty state (fresh tables, no notifications). -/
def initState : BotState :=
  ⟨[], [], []⟩

/-- `DexScreenerBot.verify_volume`.  With no `pocket_universe` endpoint
configured, fall back to `volume is not None and volume > 0`; otherwise
return the raw `authentic` field of the service response (default
`False`), with any exception in the call caught and turned into
`False`.  The return value is a `PyVal` because the source returns the
uncoerced `authentic` value, which the caller tests for truthiness. -/
def verify_volume (cfg : Config) (w : World) (token : PyVal) : Except Unit PyVal :=
  match pyGet token "id" with
  | .error e => .error e
  | .ok token_id =>
    if cfg.pocket_universe = "" then
      match pyGet token "volume" with
      | .error e => .error e
      | .ok volume =>
        .ok (.bool (match safeFloat volume with
          | some v => decide (0 < v)
          | none => false))
    else
      .ok (match w.pocketResp token_id with
        | .ok (.dict d) => (dictGet d "authentic").getD (.bool false)
        | _ => .bool false)

/-- `DexScreenerBot.verify_rugcheck`.  No contract (falsy) fails closed;
no endpoint fails open; otherwise only a response whose `status` field
equals the string `"Good"` passes, with any exception in the call caught
and turned into `False`. -/
def verify_rugcheck (cfg : Config) (w : World) (token : PyVal) : Except Unit Bool :=
  match pyGet token "contract" with
  | .error e => .error e
  | .ok contract =>
    if contract.truthy = false then .ok false
    else if cfg.rugcheck = "" then .ok true
    else
      .ok (match w.rugResp contract with
        | .ok (.dict d) => pyEqStr ((dictGet d "status").getD (.str "")) "Good"
        | _ => false)

/-- The fixed set used by `classify_coin`'s dummy CEX-listing check. -/
def known_cex_tokens : List String :=
  ["BTC", "ETH", "BNB", "USDT", "USDC"]

/-- Lines 241-242: the `rugged` event list (empty or a singleton). -/
def rug_events (rug_threshold : ℚ) (pcv : Option ℚ) : List (String × String) :=
  match pcv with
  | some v =>
    if v < rug_threshold then
      [("rugged", "Price dropped by " ++ ratStr v ++ "% (threshold: "
        ++ ratStr rug_threshold ++ "%)")]
    else []
  | Option.none => []

/-- Lines 244-245: the `pumped` event list (empty or a singleton). -/
def pump_events (pump_threshold : ℚ) (pcv : Option ℚ) : List (String × String) :=
  match pcv with
  | some v =>
    if v > pump_threshold then
      [("pumped", "Price increased by " ++ ratStr v ++ "% (threshold: "
        ++ ratStr pump_threshold ++ "%)")]
    else []
  | Option.none => []

/-- Lines 247-248: the `tier-1` event list (empty or a singleton). -/
def tier1_events (tier1_liquidity : ℚ) (lqv : Option ℚ) : List (String × String) :=
  match lqv with
  | some v =>
    if v > tier1_liquidity then
      [("tier-1", "High liquidity of " ++ ratStr v ++ " (threshold: "
        ++ ratStr tier1_liquidity ++ ")")]
    else []
  | Option.none => []

/-- The condition of line 252, `symbol and symbol.upper() in
known_cex_tokens`, as a pure predicate on the symbol value (it is false
where line 252 would raise, a case that cannot be reached by a
`classify_coin` run that returns normally). -/
def cex_flag (v : PyVal) : Bool :=
  match v with
  | .str s => s != "" && decide (strUpper s ∈ known_cex_tokens)
  | _ => false

/-- `DexScreenerBot.classify_coin`: apply the thresholds (defaults
`-80`, `100`, `1000000` when absent from `filters`) and return the
ordered event list.  The `for` loop that records each event via
`record_event` is a pure database side effect and is performed by the
caller in this embedding (see `commit`), with an identical resulting
`coin_events` table. -/
def classify_coin (cfg : Config) (token : PyVal) : Except Unit (List (String × String)) :=
  match pyGet token "id" with
  | .error e => .error e
  | .ok _token_id =>
  match pyGet token "symbol" with
  | .error e => .error e
  | .ok symbol =>
  match pyGet token "price_change" with
  | .error e => .error e
  | .ok price_change =>
  match pyGet token "liquidity" with
  | .error e => .error e
  | .ok liquidity =>
    let rug_threshold := cfg.filters.rug_threshold.getD (-80)
    let pump_threshold := cfg.filters.pump_threshold.getD 100
    let tier1_liquidity := cfg.filters.tier1_liquidity.getD 1000000
    let price_change_val := safeFloat price_change
    let liquidity_val := safeFloat liquidity
    let evs1 := rug_events rug_threshold price_change_val
    let evs2 := pump_events pump_threshold price_change_val
    let evs3 := tier1_events tier1_liquidity liquidity_val
    if symbol.truthy then
      match pyUpper symbol with
      | .error e => .error e
      | .ok u =>
        if u ∈ known_cex_tokens then
          .ok (evs1 ++ evs2 ++ evs3
            ++ [("listed_on_cex", "Token " ++ symbol.toDisplay
                  ++ " is typically listed on major CEXs")])
        else .ok (evs1 ++ evs2 ++ evs3)
    else .ok (evs1 ++ evs2 ++ evs3)

/-- `DexScreenerBot.save_token_data`: build the `token_data` row that is
inserted for the token (numeric columns via `_safe_float`, `bundled` as
`1`/`0` by truthiness with default `False`). -/
def save_token_data (token : PyVal) : Except Unit Snapshot :=
  match pyGet token "id" with
  | .error e => .error e
  | .ok tid =>
  match pyGet token "symbol" with
  | .error e => .error e
  | .ok sym =>
  match pyGet token "developer" with
  | .error e => .error e
  | .ok dev =>
  match pyGet token "contract" with
  | .error e => .error e
  | .ok contract =>
  match pyGet token "price" with
  | .error e => .error e
  | .ok price =>
  match pyGet token "liquidity" with
  | .error e => .error e
  | .ok liquidity =>
  match pyGet token "volume" with
  | .error e => .error e
  | .ok volume =>
  match pyGet token "price_change" with
  | .error e => .error e
  | .ok price_change =>
  match pyGetD token "bundled" (.bool false) with
  | .error e => .error e
  | .ok bundled =>
    .ok { token_id := tid
          symbol := sym
          developer := dev
          contract := contract
          price := safeFloat price
          liquidity := safeFloat liquidity
          volume := safeFloat volume
          price_change := safeFloat price_change
          bundled := if bundled.truthy then 1 else 0 }

/-- Line 276 of the source: `token.get("symbol", "").upper()`, the
effective symbol used for the blacklist test and for reporting. -/
def effective_symbol (token : PyVal) : Except Unit String :=
  match pyGetD token "symbol" (.str "") with
  | .error e => .error e
  | .ok s => pyUpper s

/-- Line 286 of the source: `developer and developer.lower() in
dev_blacklist` (the blacklist entries lowercased as in line 273). -/
def devBlacklisted (cfg : Config) (developer : PyVal) : Except Unit Bool :=
  if developer.truthy then
    match pyLower developer with
    | .error e => .error e
    | .ok d => .ok (decide (d ∈ cfg.dev_blacklist.map strLower))
  else .ok false

/-- Lines 276-303 of `analyze_tokens`: the five skip gates for one
token, in source order (coin blacklist, dev blacklist, bundled flag,
volume verification, rugcheck verification).  `.ok true` means the
token passed every gate; `.ok false` means some gate skipped it;
`.error ()` means evaluating the gates raised. -/
def gate_pass (cfg : Config) (w : World) (token : PyVal) : Except Unit Bool :=
  match effective_symbol token with
  | .error e => .error e
  | .ok symbol =>
  match pyGetD token "developer" (.str "") with
  | .error e => .error e
  | .ok developer =>
  match pyGetD token "bundled" (.bool false) with
  | .error e => .error e
  | .ok bundled =>
    if symbol ∈ cfg.coin_blacklist.map strUpper then .ok false
    else
      match devBlacklisted cfg developer with
      | .error e => .error e
      | .ok true => .ok false
      | .ok false =>
        if bundled.truthy then .ok false
        else
          match verify_volume cfg w token with
          | .error e => .error e
          | .ok vv =>
            if vv.truthy = false then .ok false
            else
              match verify_rugcheck cfg w token with
              | .error e => .error e
              | .ok rc => .ok rc

/-- The trade-signal subset of an event list:
`[e for e in events if e[0] in ("pumped", "tier-1")]`. -/
def trade_signals (evs : List (String × String)) : List (String × String) :=
  evs.filter (fun e => decide (e.1 ∈ ["pumped", "tier-1"]))

/-- Lines 312-313: the composed notification message. -/
def trade_message (symbol : String) (sigs : List (String × String)) : String :=
  "Trade Signal for " ++ symbol ++ ":\n"
    ++ String.intercalate "\n" (sigs.map (fun e => e.1 ++ ": " ++ e.2))

/-- Lines 306-314 for a token that passed every gate: append the
snapshot row, append one `coin_events` row per classified event (the
side effect of `classify_coin`'s recording loop), and invoke the
Notifier once when any trade signal is present. -/
def commit (st : BotState) (token : PyVal) (symbol : String)
    (snap : Snapshot) (evs : List (String × String)) : BotState :=
  let st1 : BotState :=
    { token_data := st.token_data ++ [snap]
      coin_events := st.coin_events ++ evs.map (fun e => (tokGet token "id", e.1, e.2))
      notifications := st.notifications }
  let sigs := trade_signals evs
  if sigs.isEmpty then st1
  else { st1 with notifications := st1.notifications ++ [trade_message symbol sigs] }

/-- The body of `analyze_tokens`'s `for` loop for one token: evaluate
the gates and, on pass, persist and classify; any uncaught exception
propagates. -/
def process_token (cfg : Config) (w : World) (st : BotState) (token : PyVal) :
    Except Unit BotState :=
  match effective_symbol token with
  | .error e => .error e
  | .ok symbol =>
  match gate_pass cfg w token with
  | .error e => .error e
  | .ok false => .ok st
  | .ok true =>
    match save_token_data token with
    | .error e => .error e
    | .ok snap =>
      match classify_coin cfg token with
      | .error e => .error e
      | .ok evs => .ok (commit st token symbol snap evs)

/-- The `for token in tokens` loop of `analyze_tokens`: sequential,
left-to-right, with an uncaught per-token exception aborting the loop
(there is no try/except around the body). -/
def run_batch (cfg : Config) (w : World) : BotState → List PyVal → Except Unit BotState
  | st, [] => .ok st
  | st, t :: ts =>
    match process_token cfg w st t with
    | .error e => .error e
    | .ok st' => run_batch cfg w st' ts

/-- Python iteration over the value of `data.get("tokens", [])`: a list
yields its elements, a dict its keys, a string its characters; any
other value has no `len`/iteration and raises. -/
def pyIter : PyVal → Except Unit (List PyVal)
  | .list xs => .ok xs
  | .dict xs => .ok (xs.map (fun kv => .str kv.1))
  | .str s => .ok (s.toList.map (fun c => .str (String.singleton c)))
  | _ => .error ()

/-- `DexScreenerBot.analyze_tokens`, starting from empty tables:
`data.get("tokens", [])` (raising unless `data` is a dict), then the
per-token loop. -/
def analyze_tokens (cfg : Config) (w : World) (data : PyVal) : Except Unit BotState :=
  match pyGetD data "tokens" (.list []) with
  | .error e => .error e
  | .ok tv =>
    match pyIter tv with
    | .error e => .error e
    | .ok tokens => run_batch cfg w initState tokens

/-- The default configuration dict built by `load_config` when the
config file is absent (lines 31-47). -/
def default_config : PyVal :=
  .dict
    [("filters", .dict
        [("rug_threshold", .int (-80)),
         ("pump_threshold", .int 100),
         ("tier1_liquidity", .int 1000000)]),
     ("coin_blacklist", .list []),
     ("dev_blacklist", .list []),
     ("telegram", .dict
        [("telegram_token", .str ""),
         ("telegram_chat_id", .str "")]),
     ("api_endpoints", .dict
        [("pocket_universe", .str "https://api.pocketuniverse.io/verify"),
         ("rugcheck", .str "https://api.rugcheck.xyz/check")])]

/-- `DexScreenerBot.load_config`.  The configuration source is `none`
when the config file does not exist, `some (.error ())` when it exists
but `json.load` raises, and `some (.ok v)` when it parses to `v`.
A missing file yields the defaults; a parse error propagates (there is
no try/except around `json.load`). -/
def load_config (source : Option (Except Unit PyVal)) : Except Unit PyVal :=
  match source with
  | Option.none => .ok default_config
  | some r => r

/-! Concrete fixtures used to instantiate the theorems below. -/

/-- A configuration with empty blacklists, no endpoints configured and no
`filters` entries (so every threshold takes its default). -/
def cfg0 : Config :=
  ⟨⟨Option.none, Option.none, Option.none⟩, [], [], "", ""⟩

/-- The same configuration but with `"abc"` on the coin blacklist. -/
def cfgBlkAbc : Config :=
  ⟨⟨Option.none, Option.none, Option.none⟩, ["abc"], [], "", ""⟩

/-- The same configuration but with a rugcheck endpoint configured. -/
def cfgRug : Config :=
  ⟨⟨Option.none, Option.none, Option.none⟩, [], [], "", "https://api.rugcheck.xyz/check"⟩

/-- A world whose rugcheck service replies with the lowercase status
string "good" for every contract. -/
def wLower : World :=
  ⟨fun _ => .error (), fun _ => .ok (.dict [("status", .str "good")])⟩

/-- A token record that passes every gate and classifies as pumped and
tier-1. -/
def tokPump : PyVal :=
  .dict [("id", .str "T1"), ("symbol", .str "foo"), ("price_change", .int 150),
         ("liquidity", .int 2000000), ("volume", .int 10), ("contract", .str "0xabc")]

/-- The snapshot row `save_token_data` builds for `tokPump`. -/
def pumpSnap : Snapshot :=
  ⟨.str "T1", .str "foo", .none, .str "0xabc",
   Option.none, some 2000000, some 10, some 150, 0⟩

/-- The event list `classify_coin` returns for `tokPump` under `cfg0`. -/
def pumpEvents : List (String × String) :=
  [("pumped", "Price increased by 150% (threshold: 100%)"),
   ("tier-1", "High liquidity of 2000000 (threshold: 1000000)")]

/-- The state after processing `tokPump` from the empty state. -/
def pumpState : BotState :=
  ⟨[pumpSnap],
   [(.str "T1", "pumped", "Price increased by 150% (threshold: 100%)"),
    (.str "T1", "tier-1", "High liquidity of 2000000 (threshold: 1000000)")],
   ["Trade Signal for FOO:\npumped: Price increased by 150% (threshold: 100%)\ntier-1: High liquidity of 2000000 (threshold: 1000000)"]⟩

/-- A token whose `symbol` field is present but is JSON `null`:
`token.get("symbol", "")` yields `None` and `.upper()` raises. -/
def tokBadSymbol : PyVal :=
  .dict [("symbol", .none)]

/-- A token with an identifier but no `symbol` field at all. -/
def tokNoSymbol : PyVal :=
  .dict [("id", .str "abc"), ("volume", .int 5), ("contract", .str "0x1")]

/-- The snapshot row written for `tokNoSymbol`. -/
def noSymSnap : Snapshot :=
  ⟨.str "abc", .none, .none, .str "0x1", Option.none, Option.none, some 5, Option.none, 0⟩

/-- The state after processing `tokNoSymbol` from the empty state. -/
def noSymState : BotState :=
  ⟨[noSymSnap], [], []⟩

/-- A token whose volume is negative (fallback volume check fails). -/
def tokNegVol : PyVal :=
  .dict [("id", .str "v"), ("volume", .int (-3)), ("contract", .str "0x2")]

/-! Helper lemmas about the pipeline pieces. -/

theorem commit_token_data (st : BotState) (token : PyVal) (symbol : String)
    (snap : Snapshot) (evs : List (String × String)) :
    (commit st token symbol snap evs).token_data = st.token_data ++ [snap] := by
  dsimp only [commit]
  split <;> rfl

theorem commit_coin_events (st : BotState) (token : PyVal) (symbol : String)
    (snap : Snapshot) (evs : List (String × String)) :
    (commit st token symbol snap evs).coin_events
      = st.coin_events ++ evs.map (fun e => (tokGet token "id", e.1, e.2)) := by
  dsimp only [commit]
  split <;> rfl

theorem commit_notifications (st : BotState) (token : PyVal) (symbol : String)
    (snap : Snapshot) (evs : List (String × String)) :
    (commit st token symbol snap evs).notifications
      = if (trade_signals evs).isEmpty then st.notifications
        else st.notifications ++ [trade_message symbol (trade_signals evs)] := by
  dsimp only [commit]
  split <;> simp_all

/-- Decomposition of a successful `process_token` run: the effective
symbol resolved, the gates evaluated to some `b`, and the state either
unchanged (skip) or committed (pass). -/
theorem process_token_ok_elim (cfg : Config) (w : World) (st : BotState) (token : PyVal)
    (st' : BotState) (h : process_token cfg w st token = .ok st') :
    ∃ symbol b, effective_symbol token = .ok symbol ∧ gate_pass cfg w token = .ok b ∧
      ((b = false ∧ st' = st) ∨
       (b = true ∧ ∃ snap evs, save_token_data token = .ok snap ∧
          classify_coin cfg token = .ok evs ∧
          st' = commit st token symbol snap evs)) := by
  unfold process_token at h
  split at h
  · cases h
  · rename_i symbol heff
    split at h
    · cases h
    · rename_i hg
      exact ⟨symbol, false, heff, hg, Or.inl ⟨rfl, (Except.ok.injEq _ _ ▸ h).symm⟩⟩
    · rename_i hg
      split at h
      · cases h
      · rename_i snap hsave
        split at h
        · cases h
        · rename_i evs hclass
          exact ⟨symbol, true, heff, hg,
            Or.inr ⟨rfl, snap, evs, hsave, hclass, (Except.ok.injEq _ _ ▸ h).symm⟩⟩

/-- The five gates pass (`.ok true`) exactly when each individual check
of lines 281-303 passes. -/
theorem gate_pass_true_iff (cfg : Config) (w : World) (token : PyVal) :
    gate_pass cfg w token = .ok true ↔
      ∃ symbol developer bundled vv,
        effective_symbol token = .ok symbol ∧
        symbol ∉ cfg.coin_blacklist.map strUpper ∧
        pyGetD token "developer" (.str "") = .ok developer ∧
        devBlacklisted cfg developer = .ok false ∧
        pyGetD token "bundled" (.bool false) = .ok bundled ∧
        bundled.truthy = false ∧
        verify_volume cfg w token = .ok vv ∧
        vv.truthy = true ∧
        verify_rugcheck cfg w token = .ok true := by
  constructor
  · intro h
    unfold gate_pass at h
    split at h
    · cases h
    · rename_i symbol heff
      split at h
      · cases h
      · rename_i developer hdev
        split at h
        · cases h
        · rename_i bundled hbun
          split at h
          · cases h
          · rename_i hbl
            split at h
            · cases h
            · cases h
            · rename_i hdb
              split at h
              · cases h
              · rename_i hbt
                split at h
                · cases h
                · rename_i vv hvv
                  split at h
                  · cases h
                  · rename_i hvt
                    split at h
                    · cases h
                    · rename_i rc hrc
                      cases rc with
                      | false => cases h
                      | true =>
                        exact ⟨symbol, developer, bundled, vv, heff, hbl, hdev, hdb,
                          hbun, by simpa using hbt, hvv, by simpa using hvt, hrc⟩
  · rintro ⟨symbol, developer, bundled, vv, heff, hbl, hdev, hdb, hbun, hbt, hvv, hvt, hrc⟩
    unfold gate_pass
    simp only [heff, hdev, hbun, hdb, hvv, hrc]
    simp [hbl, hbt, hvt]

/-- The trade-signal filter is non-empty exactly when some event has a
trade-signal kind. -/
theorem trade_signals_isEmpty_iff (evs : List (String × String)) :
    (trade_signals evs).isEmpty = false ↔ ∃ e ∈ evs, e.1 = "pumped" ∨ e.1 = "tier-1" := by
  simp [trade_signals, List.isEmpty_eq_false_iff_exists_mem, List.mem_filter]
  constructor <;> rintro ⟨e, he, hkind⟩ <;> exact ⟨e, he, by tauto⟩

/-- Python string equality with `"Good"` holds only for that string. -/
theorem pyEqStr_good_iff (v : PyVal) :
    pyEqStr v "Good" = true ↔ v = .str "Good" := by
  cases v <;> simp [pyEqStr]

theorem rug_events_kinds (t : ℚ) (o : Option ℚ) :
    (rug_events t o).map Prod.fst =
      if (o.map (fun v => decide (v < t))).getD false then ["rugged"] else [] := by
  cases o with
  | none => rfl
  | some v => by_cases h : v < t <;> simp [rug_events, h]

theorem pump_events_kinds (t : ℚ) (o : Option ℚ) :
    (pump_events t o).map Prod.fst =
      if (o.map (fun v => decide (v > t))).getD false then ["pumped"] else [] := by
  cases o with
  | none => rfl
  | some v => by_cases h : v > t <;> simp [pump_events, h]

theorem tier1_events_kinds (t : ℚ) (o : Option ℚ) :
    (tier1_events t o).map Prod.fst =
      if (o.map (fun v => decide (v > t))).getD false then ["tier-1"] else [] := by
  cases o with
  | none => rfl
  | some v => by_cases h : v > t <;> simp [tier1_events, h]

theorem pyUpper_ok_elim (v : PyVal) (u : String) (h : pyUpper v = .ok u) :
    ∃ s, v = .str s ∧ u = strUpper s := by
  cases v with
  | str s => exact ⟨s, rfl, (Except.ok.inj h).symm⟩
  | none => simp [pyUpper] at h
  | bool b => simp [pyUpper] at h
  | int n => simp [pyUpper] at h
  | float q => simp [pyUpper] at h
  | list ys => simp [pyUpper] at h
  | dict ds => simp [pyUpper] at h

theorem cex_flag_eq_false (v : PyVal) (hv : v.truthy = false) : cex_flag v = false := by
  cases v with
  | str s =>
    simp [PyVal.truthy] at hv
    simp [cex_flag, hv]
  | none => rfl
  | bool b => rfl
  | int n => rfl
  | float q => rfl
  | list ys => rfl
  | dict ds => rfl

theorem cex_flag_str (s : String) (hs : ¬ s = "") :
    cex_flag (.str s) = decide (strUpper s ∈ known_cex_tokens) := by
  simp [cex_flag, hs]

theorem classify_kinds_eq (cfg : Config) (token : PyVal)
    (evs : List (String × String)) (h : classify_coin cfg token = .ok evs) :
    evs.map Prod.fst =
      (if ((safeFloat (tokGet token "price_change")).map
            (fun v => decide (v < cfg.filters.rug_threshold.getD (-80)))).getD false
       then ["rugged"] else [])
      ++ (if ((safeFloat (tokGet token "price_change")).map
            (fun v => decide (v > cfg.filters.pump_threshold.getD 100))).getD false
          then ["pumped"] else [])
      ++ (if ((safeFloat (tokGet token "liquidity")).map
            (fun v => decide (v > cfg.filters.tier1_liquidity.getD 1000000))).getD false
          then ["tier-1"] else [])
      ++ (if cex_flag (tokGet token "symbol") then ["listed_on_cex"] else []) := by
  cases token with
  | dict xs =>
    unfold classify_coin at h
    simp only [pyGet, pyGetD, tokGet] at h ⊢
    split at h
    · rename_i htr
      split at h
      · cases h
      · rename_i u hup
        obtain ⟨s, hv, rfl⟩ := pyUpper_ok_elim _ u hup
        rw [hv] at htr
        simp only [hv]
        have hs : ¬ s = "" := by simpa [PyVal.truthy] using htr
        split at h
        · rename_i hmem
          obtain rfl := Except.ok.inj h
          simp [List.map_append, rug_events_kinds, pump_events_kinds, tier1_events_kinds,
            cex_flag_str s hs, hmem]
        · rename_i hmem
          obtain rfl := Except.ok.inj h
          simp [List.map_append, rug_events_kinds, pump_events_kinds, tier1_events_kinds,
            cex_flag_str s hs, hmem]
    · rename_i htr
      have hf := Bool.eq_false_iff.mpr (fun hc => htr hc)
      obtain rfl := Except.ok.inj h
      simp [List.map_append, rug_events_kinds, pump_events_kinds, tier1_events_kinds,
        cex_flag_eq_false _ hf]
  | none => simp [classify_coin, pyGet, pyGetD] at h
  | bool b => simp [classify_coin, pyGet, pyGetD] at h
  | int n => simp [classify_coin, pyGet, pyGetD] at h
  | float q => simp [classify_coin, pyGet, pyGetD] at h
  | str s => simp [classify_coin, pyGet, pyGetD] at h
  | list ys => simp [classify_coin, pyGet, pyGetD] at h

/-! Claim theorems. -/

/-- Claim C1: for a token whose processing completes without an
exception, exactly one snapshot row is appended to `token_data` iff the
token passes all five gates (effective symbol not coin-blacklisted,
developer absent or not dev-blacklisted, bundled flag falsy, volume
verification truthy, rugcheck verification true); a token failing a
gate leaves the state untouched (no snapshot row, no `coin_events`
rows, no notification), and a passing token gets its snapshot row even
when classification returns zero events. -/
theorem snapshot_iff_gates (cfg : Config) (w : World) (st : BotState) (token : PyVal)
    (st' : BotState) (h : process_token cfg w st token = .ok st') :
    ∃ b, gate_pass cfg w token = .ok b ∧
      (b = true ↔
        ∃ symbol developer bundled vv,
          effective_symbol token = .ok symbol ∧
          symbol ∉ cfg.coin_blacklist.map strUpper ∧
          pyGetD token "developer" (.str "") = .ok developer ∧
          devBlacklisted cfg developer = .ok false ∧
          pyGetD token "bundled" (.bool false) = .ok bundled ∧
          bundled.truthy = false ∧
          verify_volume cfg w token = .ok vv ∧
          vv.truthy = true ∧
          verify_rugcheck cfg w token = .ok true) ∧
      (b = true → ∃ snap evs, save_token_data token = .ok snap ∧
          classify_coin cfg token = .ok evs ∧
          st'.token_data = st.token_data ++ [snap] ∧
          st'.coin_events = st.coin_events
            ++ evs.map (fun e => (tokGet token "id", e.1, e.2))) ∧
      (b = false → st' = st) := by
  obtain ⟨symbol, b, heff, hg, hcase⟩ := process_token_ok_elim cfg w st token st' h
  refine ⟨b, hg, ⟨?_, ?_⟩, ?_, ?_⟩
  · intro hb
    exact (gate_pass_true_iff cfg w token).mp (hb ▸ hg)
  · intro hr
    have h2 := (gate_pass_true_iff cfg w token).mpr hr
    rw [hg] at h2
    exact Except.ok.inj h2
  · intro hb
    rcases hcase with ⟨hb', _⟩ | ⟨_, snap, evs, hsave, hclass, hst⟩
    · rw [hb] at hb'; simp at hb'
    · exact ⟨snap, evs, hsave, hclass,
        by rw [hst, commit_token_data], by rw [hst, commit_coin_events]⟩
  · intro hb
    rcases hcase with ⟨_, hst⟩ | ⟨hb', _⟩
    · exact hst
    · rw [hb] at hb'; simp at hb'

/-- Claim C1 witness: the theorem applied to the concrete passing token
`tokPump` yields exactly one appended snapshot row. -/
theorem snapshot_iff_gates_witness :
    pumpState.token_data = initState.token_data ++ [pumpSnap] := by
  obtain ⟨b, hb, _hiff, htrue, _hfalse⟩ :=
    snapshot_iff_gates cfg0 noNet initState tokPump pumpState rfl
  have hg : gate_pass cfg0 noNet tokPump = Except.ok true := rfl
  have hbt : b = true := Except.ok.inj (hb.symm.trans hg)
  obtain ⟨snap, evs, hsave, _hclass, htd, _hce⟩ := htrue hbt
  have hknown : save_token_data tokPump = Except.ok pumpSnap := rfl
  have hsnap : snap = pumpSnap := Except.ok.inj (hsave.symm.trans hknown)
  rw [hsnap] at htd
  exact htd

/-- Claim C6 counterexample: a batch whose first token has a `null`
`symbol` field raises while being processed (`None.upper()`), and
`analyze_tokens` returns that error instead of processing the second
token -- which, alone, is processed fine.  So a per-token exception
does abort the rest of the batch. -/
theorem per_token_error_aborts_cex :
    analyze_tokens cfg0 noNet (.dict [("tokens", .list [tokBadSymbol, tokPump])]) = .error ()
    ∧ analyze_tokens cfg0 noNet (.dict [("tokens", .list [tokPump])]) = .ok pumpState :=
  ⟨rfl, rfl⟩

/-- Claim C6 amended: `analyze_tokens` has no per-token exception
handling: a token whose processing raises (here: a present-but-null
`symbol` field) aborts the whole batch with that exception, and no
token after it is processed, whatever the rest of the batch is. -/
theorem per_token_error_aborts (cfg : Config) (w : World) (st : BotState)
    (rest : List PyVal) :
    run_batch cfg w st (tokBadSymbol :: rest) = .error ()
    ∧ analyze_tokens cfg w (.dict [("tokens", .list (tokBadSymbol :: rest))]) = .error () := by
  have hp : ∀ st0 : BotState, process_token cfg w st0 tokBadSymbol = .error () :=
    fun _ => rfl
  have hrb : ∀ st0 : BotState, run_batch cfg w st0 (tokBadSymbol :: rest) = .error () := by
    intro st0
    simp [run_batch, hp]
  exact ⟨hrb st, hrb initState⟩

/-- Claim C7 counterexample: the token `{id: "abc", volume: 5, contract:
"0x1"}` has no symbol; under the claim its effective symbol would be its
identifier `"ABC"`, so with `coin_blacklist = ["abc"]` it would be
skipped with no snapshot row.  The code resolves the effective symbol to
`""` and persists a snapshot row. -/
theorem effective_symbol_identifier_cex :
    effective_symbol tokNoSymbol = .ok ""
    ∧ process_token cfgBlkAbc noNet initState tokNoSymbol = .ok noSymState
    ∧ noSymState.token_data = [noSymSnap] :=
  ⟨rfl, rfl, rfl⟩

/-- Claim C7 amended: the effective symbol is the declared symbol
uppercased when present (as a string), and the empty string when the
field is absent; there is no fallback to the identifier or to a
sentinel `"UNKNOWN"`, so a symbol-less token is compared against
`coin_blacklist` under the empty string. -/
theorem effective_symbol_resolution (xs : List (String × PyVal)) :
    (dictGet xs "symbol" = Option.none → effective_symbol (.dict xs) = .ok "")
    ∧ (∀ s : String, dictGet xs "symbol" = some (.str s) →
        effective_symbol (.dict xs) = .ok (strUpper s)) := by
  constructor
  · intro h
    simp [effective_symbol, pyGetD, h, pyUpper, strUpper]
  · intro s h
    simp [effective_symbol, pyGetD, h, pyUpper]

/-- Claim C7 witness: the amended resolution evaluated on a token with
an identifier but no symbol field. -/
theorem effective_symbol_resolution_witness :
    effective_symbol (.dict [("id", .str "abc")]) = .ok "" :=
  (effective_symbol_resolution [("id", .str "abc")]).1 rfl

/-- Claim C8 counterexample: a bare list of token records makes
`analyze_tokens` raise (`data.get` on a list has no `get` attribute)
instead of processing the records; nothing is treated as an empty
batch. -/
theorem bare_list_batch_cex :
    analyze_tokens cfg0 noNet (.list [tokPump]) = .error () := rfl

/-- Claim C8 amended: only a wrapper dict is accepted: a dict without
the key `"tokens"` is an empty batch (zero tokens, no error), while any
non-dict value -- including a bare sequence of token records -- raises
immediately and processes nothing. -/
theorem batch_shape_spec (cfg : Config) (w : World) :
    (∀ xs : List PyVal, analyze_tokens cfg w (.list xs) = .error ())
    ∧ (∀ xs : List (String × PyVal), dictGet xs "tokens" = Option.none →
        analyze_tokens cfg w (.dict xs) = .ok initState) := by
  constructor
  · intro xs
    rfl
  · intro xs h
    simp [analyze_tokens, pyGetD, h, pyIter, run_batch]

/-- Claim C8 witness: a dict without the conventional key is an empty
batch. -/
theorem batch_shape_spec_witness :
    analyze_tokens cfg0 noNet (.dict [("x", .int 1)]) = .ok initState :=
  (batch_shape_spec cfg0 noNet).2 [("x", .int 1)] rfl

/-- Claim C9 counterexample: a present but malformed configuration
source makes `load_config` propagate the parse error (`json.load` has
no exception handler), so configuration loading is not "never
fatal". -/
theorem malformed_config_raises_cex :
    load_config (some (.error ())) = .error () := rfl

/-- Claim C9 amended: a missing configuration source yields the
documented defaults (rug -80, pump 100, tier-1 liquidity 1000000,
empty blacklists), and an individually missing threshold falls back to
its default at the point of use in `classify_coin`; but a present and
malformed configuration source raises. -/
theorem config_defaults_spec :
    load_config Option.none = .ok default_config
    ∧ tokGet (tokGet default_config "filters") "rug_threshold" = .int (-80)
    ∧ tokGet (tokGet default_config "filters") "pump_threshold" = .int 100
    ∧ tokGet (tokGet default_config "filters") "tier1_liquidity" = .int 1000000
    ∧ tokGet default_config "coin_blacklist" = .list []
    ∧ tokGet default_config "dev_blacklist" = .list []
    ∧ (∀ (bl dbl : List String) (pu rc : String) (token : PyVal),
        classify_coin ⟨⟨Option.none, Option.none, Option.none⟩, bl, dbl, pu, rc⟩ token
          = classify_coin ⟨⟨some (-80), some 100, some 1000000⟩, bl, dbl, pu, rc⟩ token) :=
  ⟨rfl, rfl, rfl, rfl, rfl, rfl, fun _ _ _ _ _ => rfl⟩

/-- Claim C2: for any normal `classify_coin` run the event kinds are, in
this fixed order and each at most once: `rugged` exactly when the
price-change coerces to a number strictly below `rug_threshold`,
`pumped` exactly when it is strictly above `pump_threshold`, `tier-1`
exactly when the liquidity coerces to a number strictly above
`tier1_liquidity` (so equality yields no tier-1 event), and
`listed_on_cex` per the fixed CEX set; an absent or non-numeric
price-change or liquidity contributes no event of the corresponding
kinds. -/
theorem classify_kinds_spec (cfg : Config) (token : PyVal)
    (evs : List (String × String)) (h : classify_coin cfg token = .ok evs) :
    evs.map Prod.fst =
      (if ((safeFloat (tokGet token "price_change")).map
            (fun v => decide (v < cfg.filters.rug_threshold.getD (-80)))).getD false
       then ["rugged"] else [])
      ++ (if ((safeFloat (tokGet token "price_change")).map
            (fun v => decide (v > cfg.filters.pump_threshold.getD 100))).getD false
          then ["pumped"] else [])
      ++ (if ((safeFloat (tokGet token "liquidity")).map
            (fun v => decide (v > cfg.filters.tier1_liquidity.getD 1000000))).getD false
          then ["tier-1"] else [])
      ++ (if cex_flag (tokGet token "symbol") then ["listed_on_cex"] else []) :=
  classify_kinds_eq cfg token evs h

/-- Claim C2 witness: the kind equation evaluated at `tokPump`
(price-change 150 and liquidity 2000000 against the default
thresholds). -/
theorem classify_kinds_spec_witness :
    ∃ evs, classify_coin cfg0 tokPump = .ok evs
      ∧ evs.map Prod.fst = ["pumped", "tier-1"] := by
  refine ⟨pumpEvents, rfl, ?_⟩
  exact (classify_kinds_spec cfg0 tokPump pumpEvents rfl).trans rfl

/-- Claim C10: when `rug_threshold ≤ pump_threshold` (as with the
defaults -80 and 100), one `classify_coin` run never returns both a
`rugged` and a `pumped` event, because one price-change value cannot be
strictly below the former and strictly above the latter at once. -/
theorem no_rug_and_pump (cfg : Config) (token : PyVal) (evs : List (String × String))
    (hth : cfg.filters.rug_threshold.getD (-80) ≤ cfg.filters.pump_threshold.getD 100)
    (h : classify_coin cfg token = .ok evs) :
    ¬ ("rugged" ∈ evs.map Prod.fst ∧ "pumped" ∈ evs.map Prod.fst) := by
  rintro ⟨hr, hp⟩
  rw [classify_kinds_eq cfg token evs h] at hr hp
  cases hpc : safeFloat (tokGet token "price_change") with
  | none => rw [hpc] at hr; simp at hr
  | some v =>
    rw [hpc] at hr hp
    by_cases h1 : v < cfg.filters.rug_threshold.getD (-80)
      <;> by_cases h2 : v > cfg.filters.pump_threshold.getD 100
      <;> simp [h1, h2] at hr hp
    exact absurd ((h1.trans_le hth).trans h2) (lt_irrefl v)

/-- Claim C10 witness: applied to the concrete run on `tokPump` under
the default thresholds. -/
theorem no_rug_and_pump_witness :
    ¬ ("rugged" ∈ pumpEvents.map Prod.fst ∧ "pumped" ∈ pumpEvents.map Prod.fst) :=
  no_rug_and_pump cfg0 tokPump pumpEvents (by norm_num [cfg0]) rfl

/-- Claim C3: for a token that passes all gates in a loop-body run that
completes normally, exactly one Notifier invocation is appended when
some classified event is a trade signal (`pumped` or `tier-1`), and its
message carries one `kind: detail` line per trade-signal event; when no
classified event is a trade signal, no notification is appended. -/
theorem trade_notification_spec (cfg : Config) (w : World) (st : BotState)
    (token : PyVal) (st' : BotState)
    (h : process_token cfg w st token = .ok st')
    (hg : gate_pass cfg w token = .ok true) :
    ∃ sym evs, effective_symbol token = .ok sym ∧ classify_coin cfg token = .ok evs ∧
      ((∃ e ∈ evs, e.1 = "pumped" ∨ e.1 = "tier-1") →
        st'.notifications = st.notifications
          ++ ["Trade Signal for " ++ sym ++ ":\n"
              ++ String.intercalate "\n"
                  ((trade_signals evs).map (fun e => e.1 ++ ": " ++ e.2))])
      ∧ ((¬ ∃ e ∈ evs, e.1 = "pumped" ∨ e.1 = "tier-1") →
        st'.notifications = st.notifications) := by
  obtain ⟨symbol, b, heff, hgb, hcase⟩ := process_token_ok_elim cfg w st token st' h
  have hb : b = true := Except.ok.inj (hgb.symm.trans hg)
  subst hb
  rcases hcase with ⟨hfalse, _⟩ | ⟨_, snap, evs, hsave, hclass, hst⟩
  · simp at hfalse
  · refine ⟨symbol, evs, heff, hclass, ?_, ?_⟩
    · intro hsig
      have hne : (trade_signals evs).isEmpty = false :=
        (trade_signals_isEmpty_iff evs).mpr hsig
      rw [hst, commit_notifications, hne]
      simp [trade_message]
    · intro hnone
      have he : (trade_signals evs).isEmpty = true := by
        cases hie : (trade_signals evs).isEmpty
        · exact absurd ((trade_signals_isEmpty_iff evs).mp hie) hnone
        · rfl
      rw [hst, commit_notifications, he]
      simp

/-- Claim C3 witness: `tokPump` produces both trade-signal events and
exactly one notification carrying both lines. -/
theorem trade_notification_spec_witness :
    pumpState.notifications = initState.notifications
      ++ ["Trade Signal for FOO:\npumped: Price increased by 150% (threshold: 100%)\ntier-1: High liquidity of 2000000 (threshold: 1000000)"] := by
  obtain ⟨sym, evs, hsym, hevs, hyes, _hno⟩ :=
    trade_notification_spec cfg0 noNet initState tokPump pumpState rfl rfl
  have h1 : sym = "FOO" :=
    Except.ok.inj (hsym.symm.trans (rfl : effective_symbol tokPump = Except.ok "FOO"))
  have h2 : evs = pumpEvents :=
    Except.ok.inj (hevs.symm.trans (rfl : classify_coin cfg0 tokPump = Except.ok pumpEvents))
  subst h1
  subst h2
  have := hyes ⟨("pumped", "Price increased by 150% (threshold: 100%)"),
    List.mem_cons_self _ _, Or.inl rfl⟩
  exact this.trans rfl

/-- Claim C4: `verify_rugcheck` returns false whenever the contract
address is absent or the empty string, regardless of endpoint
configuration; with a non-empty contract and no endpoint it returns
true (fail open); with an endpoint configured it returns true exactly
when the service response is a dict whose `status` field equals the
literal string `"Good"` (case-sensitive), and false for any other
status, a missing status field, a non-dict response, or a transport or
parse error. -/
theorem verify_rugcheck_spec (cfg : Config) (w : World) (xs : List (String × PyVal)) :
    (dictGet xs "contract" = Option.none →
      verify_rugcheck cfg w (.dict xs) = .ok false)
    ∧ (dictGet xs "contract" = some (.str "") →
      verify_rugcheck cfg w (.dict xs) = .ok false)
    ∧ (∀ s : String, ¬ s = "" → dictGet xs "contract" = some (.str s) →
        cfg.rugcheck = "" → verify_rugcheck cfg w (.dict xs) = .ok true)
    ∧ (∀ s : String, ¬ s = "" → dictGet xs "contract" = some (.str s) →
        ¬ cfg.rugcheck = "" →
        ((verify_rugcheck cfg w (.dict xs) = .ok true ↔
            ∃ d, w.rugResp (.str s) = .ok (.dict d) ∧
              (dictGet d "status").getD (.str "") = .str "Good")
          ∧ (verify_rugcheck cfg w (.dict xs) = .ok true
             ∨ verify_rugcheck cfg w (.dict xs) = .ok false))) := by
  refine ⟨?_, ?_, ?_, ?_⟩
  · intro h
    simp [verify_rugcheck, pyGet, pyGetD, h, PyVal.truthy]
  · intro h
    simp [verify_rugcheck, pyGet, pyGetD, h, PyVal.truthy]
  · intro s hs h hrc
    simp [verify_rugcheck, pyGet, pyGetD, h, PyVal.truthy, hs, hrc]
  · intro s hs h hrc
    have hred : verify_rugcheck cfg w (.dict xs)
        = .ok (match w.rugResp (.str s) with
          | .ok (.dict d) => pyEqStr ((dictGet d "status").getD (.str "")) "Good"
          | _ => false) := by
      simp [verify_rugcheck, pyGet, pyGetD, h, PyVal.truthy, hs, hrc]
    rw [hred]
    have hmain : ∀ r : Except Unit PyVal,
        ((Except.ok (match r with
            | .ok (.dict d) => pyEqStr ((dictGet d "status").getD (.str "")) "Good"
            | _ => false) : Except Unit Bool) = .ok true ↔
          ∃ d, r = .ok (.dict d) ∧ (dictGet d "status").getD (.str "") = .str "Good")
        ∧ ((Except.ok (match r with
            | .ok (.dict d) => pyEqStr ((dictGet d "status").getD (.str "")) "Good"
            | _ => false) : Except Unit Bool) = .ok true
          ∨ (Except.ok (match r with
            | .ok (.dict d) => pyEqStr ((dictGet d "status").getD (.str "")) "Good"
            | _ => false) : Except Unit Bool) = .ok false) := by
      intro r
      constructor
      · cases r with
        | error e => simp
        | ok v =>
          cases v with
          | dict d =>
            simp only [Except.ok.injEq, PyVal.dict.injEq]
            rw [pyEqStr_good_iff]
            constructor
            · intro hgood
              exact ⟨d, rfl, hgood⟩
            · rintro ⟨d', rfl, hgood⟩
              exact hgood
          | none => simp
          | bool b => simp
          | int n => simp
          | float q => simp
          | str t => simp
          | list ys => simp
      · cases r with
        | error e => right; rfl
        | ok v =>
          cases v with
          | dict d =>
            cases hc : pyEqStr ((dictGet d "status").getD (.str "")) "Good"
            · right; simp [hc]
            · left; simp [hc]
          | none => right; rfl
          | bool b => right; rfl
          | int n => right; rfl
          | float q => right; rfl
          | str t => right; rfl
          | list ys => right; rfl
    exact hmain (w.rugResp (.str s))

/-- Claim C4 witness: with a non-empty contract and no endpoint the
check fails open, and with an endpoint a lowercase `"good"` status is
rejected (case-sensitive comparison). -/
theorem verify_rugcheck_spec_witness :
    verify_rugcheck cfg0 noNet (.dict [("contract", .str "0xabc")]) = .ok true
    ∧ verify_rugcheck cfgRug wLower (.dict [("contract", .str "0xabc")]) = .ok false := by
  constructor
  · exact (verify_rugcheck_spec cfg0 noNet [("contract", .str "0xabc")]).2.2.1 "0xabc"
      (by simp) rfl rfl
  · have h4 := (verify_rugcheck_spec cfgRug wLower [("contract", .str "0xabc")]).2.2.2
      "0xabc" (by simp) rfl (by simp [cfgRug])
    rcases h4.2 with htrue | hfalse
    · exfalso
      obtain ⟨d, hd, hgood⟩ := h4.1.mp htrue
      have hresp : wLower.rugResp (.str "0xabc")
          = Except.ok (.dict [("status", .str "good")]) := rfl
      obtain rfl := PyVal.dict.inj (Except.ok.inj (hresp.symm.trans hd))
      have h0 : (dictGet [("status", PyVal.str "good")] "status").getD (.str "")
          = PyVal.str "good" := rfl
      exact absurd (PyVal.str.inj (h0.symm.trans hgood)) (by simp)
    · exact hfalse

/-- Claim C5: with no pocket_universe endpoint configured,
`verify_volume` returns a boolean that is true exactly when the token's
volume coerces to a strictly positive number; consequently, in fallback
mode a token whose volume is absent, non-numeric, zero or negative and
whose loop-body run completes normally leaves the pipeline state
unchanged (no snapshot saved, no events recorded, no notification). -/
theorem verify_volume_fallback_spec (cfg : Config) (w : World) (st st' : BotState)
    (xs : List (String × PyVal)) (hend : cfg.pocket_universe = "") :
    (∃ b : Bool, verify_volume cfg w (.dict xs) = .ok (.bool b)
      ∧ (b = true ↔ ∃ q : ℚ, safeFloat (tokGet (.dict xs) "volume") = some q ∧ 0 < q))
    ∧ ((∀ q : ℚ, safeFloat (tokGet (.dict xs) "volume") = some q → q ≤ 0) →
        process_token cfg w st (.dict xs) = .ok st' → st' = st) := by
  have hred : verify_volume cfg w (.dict xs)
      = .ok (.bool (match safeFloat ((dictGet xs "volume").getD PyVal.none) with
          | some v => decide (0 < v)
          | Option.none => false)) := by
    simp [verify_volume, pyGet, pyGetD, hend]
  constructor
  · refine ⟨_, hred, ?_⟩
    have hiff : ∀ o : Option ℚ,
        ((match o with | some v => decide (0 < v) | Option.none => false) = true
          ↔ ∃ q : ℚ, o = some q ∧ 0 < q) := by
      intro o
      cases o with
      | none => simp
      | some q => simp
    have := hiff (safeFloat ((dictGet xs "volume").getD PyVal.none))
    simpa [tokGet] using this
  · intro hnpos hp
    obtain ⟨symbol, b, heff, hgb, hcase⟩ := process_token_ok_elim cfg w st (.dict xs) st' hp
    have hbf : ¬ b = true := by
      intro hb
      subst hb
      obtain ⟨_, _, _, vv, _, _, _, _, _, _, hvv, hvt, _⟩ :=
        (gate_pass_true_iff cfg w (.dict xs)).mp hgb
      have hmatch : ∀ o : Option ℚ, (∀ q : ℚ, o = some q → q ≤ 0) →
          (match o with | some v => decide (0 < v) | Option.none => false) = false := by
        intro o ho
        cases o with
        | none => rfl
        | some q => exact decide_eq_false (not_lt.mpr (ho q rfl))
      rw [hmatch (safeFloat ((dictGet xs "volume").getD PyVal.none))
        (fun q hq => hnpos q (by simpa [tokGet] using hq))] at hred
      have hvvf : vv = .bool false := Except.ok.inj (hvv.symm.trans hred)
      rw [hvvf] at hvt
      simp [PyVal.truthy] at hvt
    rcases hcase with ⟨_, hst⟩ | ⟨hb, _⟩
    · exact hst
    · exact absurd hb hbf

/-- Claim C5 witness: fallback mode with volume -3: the fallback check
is false (so the pipeline skips the token before persisting). -/
theorem verify_volume_fallback_spec_witness :
    verify_volume cfg0 noNet tokNegVol = .ok (.bool false) := by
  obtain ⟨b, hb, hiff⟩ :=
    (verify_volume_fallback_spec cfg0 noNet initState initState
      [("id", .str "v"), ("volume", .int (-3)), ("contract", .str "0x2")] rfl).1
  cases hbv : b with
  | false =>
    rw [hbv] at hb
    exact hb
  | true =>
    exfalso
    obtain ⟨q, hq, hpos⟩ := hiff.mp hbv
    have h0 : safeFloat (tokGet (.dict [("id", PyVal.str "v"), ("volume", PyVal.int (-3)),
        ("contract", PyVal.str "0x2")]) "volume") = some (-3 : ℚ) := rfl
    have hq3 : (-3 : ℚ) = q := Option.some.inj (h0.symm.trans hq)
    rw [← hq3] at hpos
    norm_num at hpos

end DexBot
